import Mathlib

/-!
Shallow embedding of the worker-pool coordinator (`src/platform/process.c`)
and the signal coordinator (`src/platform/signals.c`) of the libreactor
worker-pool repository, with theorems settling the frozen claims about them.

Modelling conventions:
* C pointers that may be NULL are modelled as `Option`; a NULL pointer is
  `none`.
* Machine `int` fields are modelled as `Int` (all values occurring here are
  far from overflow).
* OS calls that may fail (`malloc`, `eventfd`, `fork`, `eventfd_read`,
  `eventfd_write`, `sched_setaffinity`, `wait`, `sigaction`) are modelled by
  explicit outcome oracles passed as arguments; the pure Lean function then
  follows the C control flow exactly.
* File descriptors open in the current process are tracked in an explicit
  list; `close(fd)` erases the descriptor from it.  The descriptor returned
  by the `eventfd` call of fork-loop iteration `i` is modelled as the fresh
  value `3 + i`.
* `log_info` / `log_error` output is modelled as an explicit event list
  where a claim depends on it.
-/

namespace Libreactor

/-- Error codes of `process.h`, as used by `process.c`. -/
inductive process_error_t
  | PROCESS_OK
  | PROCESS_ERROR_INVALID_PARAM
  | PROCESS_ERROR_FORK
  | PROCESS_ERROR_EVENTFD
  | PROCESS_ERROR_WAIT
deriving DecidableEq, Repr

/-- Process role tag (`process_type_t` in `process.h`). -/
inductive process_type_t
  | PROCESS_TYPE_PARENT
  | PROCESS_TYPE_WORKER
deriving DecidableEq, Repr

/-- Caller-supplied worker configuration (`worker_config_t`).  The
`cpu_ids` pointer may be NULL, hence `Option`. -/
structure worker_config_t where
  worker_count : Int
  cpu_ids : Option (List Int)
  enable_affinity : Bool
deriving DecidableEq, Repr

/-- Per-slot worker context (`worker_context_t`): fields as in `process.c`. -/
structure worker_context_t where
  worker_id : Int
  cpu_id : Int
  eventfd : Int
  pid : Int
deriving DecidableEq, Repr

/-- The config copy stored inside the manager after `worker_manager_init`;
its `cpu_ids` array is the manager-owned copy (never NULL once stored). -/
structure manager_config_t where
  worker_count : Int
  cpu_ids : List Int
  enable_affinity : Bool
deriving DecidableEq, Repr

/-- The worker manager object (`worker_manager_t`). -/
structure worker_manager_t where
  config : manager_config_t
  workers : List worker_context_t
  type : process_type_t
  current_worker_id : Int
deriving DecidableEq, Repr

/-- A `worker_context_t` fresh from `memset 0`. -/
def zeroed_worker_context : worker_context_t :=
  { worker_id := 0, cpu_id := 0, eventfd := 0, pid := 0 }

/-- OS-level resources touched by `worker_manager_init`; the returned effect
list records which were touched, in order.  `spawn_process` is listed so
that "creates no processes" is expressible; `worker_manager_init` never
emits it (the function contains no `fork`). -/
inductive os_resource_t
  | malloc_cpu_array
  | free_cpu_array
  | malloc_worker_array
  | spawn_process
deriving DecidableEq, Repr

/-- Outcomes of the two `system_malloc` calls in `worker_manager_init`.
(`system_init` in `system.c` unconditionally returns `SYSTEM_OK`.) -/
structure alloc_oracle_t where
  malloc_cpu_ids : Bool
  malloc_workers : Bool
deriving DecidableEq, Repr

/-- `worker_manager_init` from `process.c`.  `manager_given` is false when
the `manager` pointer is NULL.  Returns the C error code together with the
initialized manager (on success) and the list of OS resources touched. -/
def worker_manager_init (manager_given : Bool) (config : Option worker_config_t)
    (alloc : alloc_oracle_t) :
    Except process_error_t worker_manager_t × List os_resource_t :=
  if !manager_given then (.error .PROCESS_ERROR_INVALID_PARAM, [])
  else match config with
  | none => (.error .PROCESS_ERROR_INVALID_PARAM, [])
  | some cfg =>
    if cfg.worker_count ≤ 0 then (.error .PROCESS_ERROR_INVALID_PARAM, [])
    else match cfg.cpu_ids with
    | none => (.error .PROCESS_ERROR_INVALID_PARAM, [])
    | some cpu_list =>
      if !alloc.malloc_cpu_ids then
        (.error .PROCESS_ERROR_INVALID_PARAM, [.malloc_cpu_array])
      else if !alloc.malloc_workers then
        (.error .PROCESS_ERROR_INVALID_PARAM,
          [.malloc_cpu_array, .malloc_worker_array, .free_cpu_array])
      else
        (.ok {
          config := { worker_count := cfg.worker_count,
                      cpu_ids := cpu_list.take cfg.worker_count.toNat,
                      enable_affinity := cfg.enable_affinity },
          workers := List.replicate cfg.worker_count.toNat zeroed_worker_context,
          type := .PROCESS_TYPE_PARENT,
          current_worker_id := -1 },
         [.malloc_cpu_array, .malloc_worker_array])

/-- `worker_manager_get_type` from `process.c`. -/
def worker_manager_get_type (mgr : Option worker_manager_t) : process_type_t :=
  match mgr with
  | none => .PROCESS_TYPE_PARENT
  | some m => m.type

/-- `worker_manager_get_worker_id` from `process.c`. -/
def worker_manager_get_worker_id (mgr : Option worker_manager_t) : Int :=
  match mgr with
  | none => -1
  | some m =>
    if m.type ≠ .PROCESS_TYPE_WORKER then -1
    else m.current_worker_id

/-- `worker_manager_get_cpu_id` from `process.c`. -/
def worker_manager_get_cpu_id (mgr : Option worker_manager_t) : Int :=
  match mgr with
  | none => -1
  | some m =>
    if m.type ≠ .PROCESS_TYPE_WORKER then -1
    else if m.current_worker_id < 0 ∨ m.current_worker_id ≥ m.config.worker_count then -1
    else (m.workers.getD m.current_worker_id.toNat zeroed_worker_context).cpu_id

/-- A log event of `process.c` that a claim depends on: the
`log_error("A worker process (PID: ...) has exited unexpectedly...")` line
in `worker_manager_wait_workers`. -/
inductive log_event_t
  | worker_exit_logged (pid : Int)
deriving DecidableEq, Repr

/-- `worker_manager_wait_workers` from `process.c`.  `wait_result` models
the outcome of the blocking `wait(&status)` call: `none` when it fails
(returns -1), `some pid` when a direct child with that pid terminated.
Returns the caller-visible return value (the C function returns only a
`process_error_t`) together with the emitted log events. -/
def worker_manager_wait_workers (mgr : Option worker_manager_t)
    (wait_result : Option Int) : process_error_t × List log_event_t :=
  match mgr with
  | none => (.PROCESS_ERROR_INVALID_PARAM, [])
  | some m =>
    if m.type ≠ .PROCESS_TYPE_PARENT then (.PROCESS_ERROR_INVALID_PARAM, [])
    else match wait_result with
    | none => (.PROCESS_ERROR_WAIT, [])
    | some pid => (.PROCESS_OK, [.worker_exit_logged pid])

/-- `worker_manager_signal_ready` from `process.c`.  `write_ok` models the
outcome of the `eventfd_write(efd, 1)` call. -/
def worker_manager_signal_ready (mgr : Option worker_manager_t) (write_ok : Bool) :
    process_error_t × Option worker_manager_t :=
  match mgr with
  | none => (.PROCESS_ERROR_INVALID_PARAM, none)
  | some m =>
    if m.type ≠ .PROCESS_TYPE_WORKER then (.PROCESS_ERROR_INVALID_PARAM, some m)
    else
      let worker_id := m.current_worker_id
      if worker_id < 0 ∨ worker_id ≥ m.config.worker_count then
        (.PROCESS_ERROR_INVALID_PARAM, some m)
      else
        let w := m.workers.getD worker_id.toNat zeroed_worker_context
        if w.eventfd ≤ 0 then (.PROCESS_ERROR_INVALID_PARAM, some m)
        else if !write_ok then (.PROCESS_ERROR_EVENTFD, some m)
        else
          (.PROCESS_OK,
           some { m with workers :=
             m.workers.set worker_id.toNat { w with eventfd := -1 } })

/-- Per-iteration outcome oracle for `worker_manager_fork_workers`, read at
index `i` of the fork loop:
* `efd_fail`: the `eventfd(0, EFD_SEMAPHORE)` call returns -1;
* `fork_fail`: `eventfd` succeeds but `fork()` returns -1;
* `parent pid read_ok`: `fork` succeeds, the executing process continues as
  the parent (`fork` returned `pid > 0`), and `read_ok` is the outcome of
  its blocking `eventfd_read`;
* `child pin_ok`: `fork` succeeds and the executing process continues as
  the child (`fork` returned 0); `pin_ok` is the outcome of
  `system_set_cpu_affinity` (relevant only when affinity is enabled). -/
inductive fork_step_t
  | efd_fail
  | fork_fail
  | parent (pid : Int) (read_ok : Bool)
  | child (pin_ok : Bool)
deriving DecidableEq, Repr

/-- Observable events of one process executing the fork loop. -/
inductive pevent_t
  | created_channel (i : Nat)
  | spawned (i : Nat) (pid : Int)
  | awaited (i : Nat)
deriving DecidableEq, Repr

/-- The fresh file descriptor returned by the `eventfd` call of fork-loop
iteration `i` (descriptors 0..2 are the standard streams). -/
def channel_fd (i : Nat) : Int := 3 + (i : Int)

/-- State of one process executing `worker_manager_fork_workers`: its view
of the manager, the readiness-channel descriptors currently open in the
process, and the chronological event trace. -/
structure proc_state_t where
  mgr : worker_manager_t
  open_fds : List Int
  events : List pevent_t
deriving DecidableEq, Repr

/-- The child continuation's `for (j = 0; j < i; j++)` loop in
`worker_manager_fork_workers`: close every inherited slot descriptor with
`eventfd > 0` among slots `0..i-1` and mark it `-1`. -/
def close_inherited (ws : List worker_context_t) (fds : List Int) :
    Nat → List worker_context_t × List Int
  | 0 => (ws, fds)
  | j + 1 =>
    let r := close_inherited ws fds j
    let w := r.1.getD j zeroed_worker_context
    if w.eventfd > 0 then
      (r.1.set j { w with eventfd := -1 }, r.2.erase w.eventfd)
    else r

/-- The fork loop of `worker_manager_fork_workers`, from iteration `i` with
`fuel` iterations remaining (the caller passes
`fuel = worker_count.toNat - i`; the loop guard `i < worker_count` of the C
code corresponds to `fuel > 0`). -/
def fork_loop (oracle : Nat → fork_step_t) :
    Nat → Nat → proc_state_t → process_error_t × proc_state_t
  | 0, _, st => (.PROCESS_OK, st)
  | fuel + 1, i, st =>
    let efd := channel_fd i
    let cpu := st.mgr.config.cpu_ids.getD i 0
    match oracle i with
    | .efd_fail => (.PROCESS_ERROR_EVENTFD, st)
    | .fork_fail =>
      (.PROCESS_ERROR_FORK,
        { st with open_fds := (st.open_fds ++ [efd]).erase efd,
                  events := st.events ++ [.created_channel i] })
    | .parent pid read_ok =>
      let ws := st.mgr.workers.set i
        { worker_id := (i : Int), cpu_id := cpu, eventfd := efd, pid := pid }
      let st1 : proc_state_t :=
        { mgr := { st.mgr with workers := ws },
          open_fds := st.open_fds ++ [efd],
          events := st.events ++ [.created_channel i, .spawned i pid] }
      if read_ok then
        let wclosed : worker_context_t :=
          { worker_id := (i : Int), cpu_id := cpu, eventfd := -1, pid := pid }
        let st2 : proc_state_t :=
          { mgr := { st1.mgr with workers := st1.mgr.workers.set i wclosed },
            open_fds := st1.open_fds.erase efd,
            events := st1.events ++ [.awaited i] }
        fork_loop oracle fuel (i + 1) st2
      else
        (.PROCESS_ERROR_EVENTFD, { st1 with open_fds := st1.open_fds.erase efd })
    | .child pin_ok =>
      let st1 : proc_state_t :=
        { mgr := { st.mgr with type := .PROCESS_TYPE_WORKER,
                               current_worker_id := (i : Int) },
          open_fds := st.open_fds ++ [efd],
          events := st.events ++ [.created_channel i] }
      if st1.mgr.config.enable_affinity && !pin_ok then
        (.PROCESS_ERROR_INVALID_PARAM,
          { st1 with open_fds := st1.open_fds.erase efd })
      else
        let w0 := st1.mgr.workers.getD i zeroed_worker_context
        let ws := st1.mgr.workers.set i { w0 with eventfd := efd, cpu_id := cpu }
        let r := close_inherited ws st1.open_fds i
        (.PROCESS_OK,
          { st1 with mgr := { st1.mgr with workers := r.1 }, open_fds := r.2 })

/-- `worker_manager_fork_workers` from `process.c`, for the process that
calls it.  Returns the C return value of this process's continuation and,
for a non-NULL manager, the process's final state. -/
def worker_manager_fork_workers (mgr : Option worker_manager_t)
    (oracle : Nat → fork_step_t) : process_error_t × Option proc_state_t :=
  match mgr with
  | none => (.PROCESS_ERROR_INVALID_PARAM, none)
  | some m =>
    let r := fork_loop oracle m.config.worker_count.toNat 0
      { mgr := m, open_fds := [], events := [] }
    (r.1, some r.2)

/-- The slot record the parent holds for worker `i` after its handshake
completed: channel descriptor closed (`-1`), pid and cpu recorded. -/
def handshaked_slot (i : Nat) (cpu pid : Int) : worker_context_t :=
  { worker_id := (i : Int), cpu_id := cpu, eventfd := -1, pid := pid }

/-- The worker slots recorded by the parent after `k` completed handshakes
starting at slot `i`: slot `j` holds `worker_id = j`, `cpu_id = cpu j`,
`pid = p j`, and its channel descriptor closed (`eventfd = -1`). -/
def parent_slots (p cpu : Nat → Int) :
    List worker_context_t → Nat → Nat → List worker_context_t
  | ws, _, 0 => ws
  | ws, i, k + 1 =>
    parent_slots p cpu (ws.set i (handshaked_slot i (cpu i) (p i))) (i + 1) k

/-- The parent's event trace for `k` successful spawn-and-handshake
iterations starting at slot `i`. -/
def parent_trace (p : Nat → Int) : Nat → Nat → List pevent_t
  | _, 0 => []
  | i, k + 1 =>
    .created_channel i :: .spawned i (p i) :: .awaited i :: parent_trace p (i + 1) k

/-- Extracts the slot index of a spawn event. -/
def spawn_index : pevent_t → Option Nat
  | .spawned i _ => some i
  | _ => none

/-- The CPU id the fork loop reads for slot `j`
(`manager->config.cpu_ids[j]`). -/
def cpu_of (m : worker_manager_t) (j : Nat) : Int := m.config.cpu_ids.getD j 0

/-- The parent's state after completing the spawn-and-handshake iteration
for slot `i` (starting from `st` with no channel descriptor open). -/
def parent_step_state (st : proc_state_t) (i : Nat) (pid : Int) : proc_state_t :=
  let ws := st.mgr.workers.set i
    (handshaked_slot i (st.mgr.config.cpu_ids.getD i 0) pid)
  { mgr := { st.mgr with workers := ws },
    open_fds := [],
    events := st.events ++ [.created_channel i, .spawned i pid, .awaited i] }

/-- The parent's state after completing `k` spawn-and-handshake iterations
for slots `i..i+k-1`. -/
def parent_advanced_state (p cpu : Nat → Int) (st : proc_state_t) (i k : Nat) :
    proc_state_t :=
  { mgr := { st.mgr with workers := parent_slots p cpu st.mgr.workers i k },
    open_fds := [],
    events := st.events ++ parent_trace p i k }

/-- The final state of the child continuation taken at slot `i` when
pinning succeeds or affinity is disabled: role switched to worker `i`, its
own channel handle stored in slot `i` and still open, every channel
descriptor of slots below `i` closed. -/
def child_success_state (m : worker_manager_t) (p : Nat → Int) (i : Nat) :
    proc_state_t :=
  let W := parent_slots p (cpu_of m) m.workers 0 i
  let w0 := W.getD i zeroed_worker_context
  { mgr := { config := m.config,
             workers := W.set i { w0 with eventfd := channel_fd i, cpu_id := cpu_of m i },
             type := .PROCESS_TYPE_WORKER,
             current_worker_id := (i : Int) },
    open_fds := [channel_fd i],
    events := parent_trace p 0 i ++ [.created_channel i] }

/-- The final state of the child continuation taken at slot `i` when
affinity is enabled and pinning fails: role already switched, channel
descriptor of slot `i` closed again before returning the error. -/
def child_pinfail_state (m : worker_manager_t) (p : Nat → Int) (i : Nat) :
    proc_state_t :=
  { mgr := { config := m.config,
             workers := parent_slots p (cpu_of m) m.workers 0 i,
             type := .PROCESS_TYPE_WORKER,
             current_worker_id := (i : Int) },
    open_fds := [],
    events := parent_trace p 0 i ++ [.created_channel i] }

/-! ## Signal coordinator (`src/platform/signals.c`) -/

/-- Error codes of `signals.h`, as used by `signals.c`. -/
inductive signal_error_t
  | SIGNAL_OK
  | SIGNAL_ERROR_INVALID_PARAM
  | SIGNAL_ERROR_SETUP
deriving DecidableEq, Repr

/-- Linux signal numbers used by `signals.c` (x86-64 numbering). -/
def SIGHUP : Int := 1

/-- Signal number of SIGINT. -/
def SIGINT : Int := 2

/-- Signal number of SIGUSR1. -/
def SIGUSR1 : Int := 10

/-- Signal number of SIGUSR2. -/
def SIGUSR2 : Int := 12

/-- Signal number of SIGPIPE. -/
def SIGPIPE : Int := 13

/-- Signal number of SIGTERM. -/
def SIGTERM : Int := 15

/-- `signal_config_t` from `signals.h`: per-signal enable toggles. -/
structure signal_config_t where
  handle_sigterm : Bool
  handle_sigint : Bool
  handle_sighup : Bool
  handle_sigusr1 : Bool
  handle_sigusr2 : Bool
  handle_sigpipe : Bool
deriving DecidableEq, Repr

/-- `signal_manager_t` from `signals.h`, as used in `signals.c`.  Callback
function pointers are modelled as opaque identifiers (`Option Nat`; `none`
is the NULL pointer).  Callbacks receive only the signal number and are
outside this state, so invoking one does not change the modelled fields. -/
structure signal_manager_t where
  config : signal_config_t
  sigterm_handler : Option Nat
  sigint_handler : Option Nat
  sighup_handler : Option Nat
  sigusr1_handler : Option Nat
  sigusr2_handler : Option Nat
  shutdown_requested : Bool
  reload_requested : Bool
deriving DecidableEq, Repr

/-- A `signal_manager_t` fresh from `memset 0`. -/
def zeroed_signal_manager : signal_manager_t :=
  { config := { handle_sigterm := false, handle_sigint := false,
                handle_sighup := false, handle_sigusr1 := false,
                handle_sigusr2 := false, handle_sigpipe := false },
    sigterm_handler := none, sigint_handler := none, sighup_handler := none,
    sigusr1_handler := none, sigusr2_handler := none,
    shutdown_requested := false, reload_requested := false }

/-- The static `signal_handler(int signum)` of `signals.c`, acting on the
manager the global dispatch pointer designates: the effect of one handler
invocation on the manager's fields. -/
def signal_handler (signum : Int) (m : signal_manager_t) : signal_manager_t :=
  if signum = SIGTERM then { m with shutdown_requested := true }
  else if signum = SIGINT then { m with shutdown_requested := true }
  else if signum = SIGHUP then { m with reload_requested := true }
  else m

/-- `signal_manager_default_config` from `signals.c`. -/
def signal_manager_default_config : signal_config_t :=
  { handle_sigterm := true,
    handle_sigint := true,
    handle_sighup := false,
    handle_sigusr1 := false,
    handle_sigusr2 := false,
    handle_sigpipe := true }

/-- `signal_manager_set_handler` from `signals.c`. -/
def signal_manager_set_handler (mgr : Option signal_manager_t) (signum : Int)
    (callback : Option Nat) : signal_error_t × Option signal_manager_t :=
  match mgr with
  | none => (.SIGNAL_ERROR_INVALID_PARAM, none)
  | some m =>
    if signum = SIGTERM then (.SIGNAL_OK, some { m with sigterm_handler := callback })
    else if signum = SIGINT then (.SIGNAL_OK, some { m with sigint_handler := callback })
    else if signum = SIGHUP then (.SIGNAL_OK, some { m with sighup_handler := callback })
    else if signum = SIGUSR1 then (.SIGNAL_OK, some { m with sigusr1_handler := callback })
    else if signum = SIGUSR2 then (.SIGNAL_OK, some { m with sigusr2_handler := callback })
    else (.SIGNAL_ERROR_INVALID_PARAM, some m)

/-- The callback currently registered in `m` for signal `signum` (the field
the `switch` in `signal_manager_set_handler` selects). -/
def registered_callback (m : signal_manager_t) (signum : Int) : Option Nat :=
  if signum = SIGTERM then m.sigterm_handler
  else if signum = SIGINT then m.sigint_handler
  else if signum = SIGHUP then m.sighup_handler
  else if signum = SIGUSR1 then m.sigusr1_handler
  else if signum = SIGUSR2 then m.sigusr2_handler
  else none

/-- `signal_manager_shutdown_requested` from `signals.c`. -/
def signal_manager_shutdown_requested (mgr : Option signal_manager_t) : Bool :=
  match mgr with
  | none => false
  | some m => m.shutdown_requested

/-- `signal_manager_reload_requested` from `signals.c`. -/
def signal_manager_reload_requested (mgr : Option signal_manager_t) : Bool :=
  match mgr with
  | none => false
  | some m => m.reload_requested

/-- `signal_manager_reset_shutdown` from `signals.c` (non-NULL manager). -/
def signal_manager_reset_shutdown (m : signal_manager_t) : signal_manager_t :=
  { m with shutdown_requested := false }

/-- `signal_manager_reset_reload` from `signals.c` (non-NULL manager). -/
def signal_manager_reset_reload (m : signal_manager_t) : signal_manager_t :=
  { m with reload_requested := false }

/-- The operations of the signal coordinator named by claim C7, each acting
on the active manager. -/
inductive sig_op_t
  | handle (signum : Int)
  | set_handler (signum : Int) (callback : Option Nat)
  | read_shutdown
  | read_reload
  | reset_reload
  | reset_shutdown
deriving DecidableEq, Repr

/-- Effect of one coordinator operation on the active manager's state
(reads leave it unchanged). -/
def sig_step (m : signal_manager_t) : sig_op_t → signal_manager_t
  | .handle s => signal_handler s m
  | .set_handler s cb =>
    match (signal_manager_set_handler (some m) s cb).2 with
    | some m2 => m2
    | none => m
  | .read_shutdown => m
  | .read_reload => m
  | .reset_reload => signal_manager_reset_reload m
  | .reset_shutdown => signal_manager_reset_shutdown m

/-- Runs a sequence of coordinator operations. -/
def sig_run (m : signal_manager_t) (ops : List sig_op_t) : signal_manager_t :=
  ops.foldl sig_step m

/-- OS-level disposition of one signal, as far as `signals.c` changes it:
`dfl` is `SIG_DFL`, `ign` is `SIG_IGN`, `installed` means `sigaction` with
`signal_handler` is in effect. -/
inductive disposition_t
  | dfl
  | ign
  | installed
deriving DecidableEq, Repr

/-- `setup_signal_handler` from `signals.c`, acting on the kernel's
per-signal disposition table.  `ok signum` models whether the `sigaction`
call for `signum` succeeds; a failed call leaves the disposition
unchanged. -/
def setup_signal_handler (ok : Int → Bool) (signum : Int) (enable : Bool)
    (dispo : Int → disposition_t) : signal_error_t × (Int → disposition_t) :=
  if enable then
    if ok signum then (.SIGNAL_OK, fun s => if s = signum then .installed else dispo s)
    else (.SIGNAL_ERROR_SETUP, dispo)
  else
    if ok signum then (.SIGNAL_OK, fun s => if s = signum then .dfl else dispo s)
    else (.SIGNAL_ERROR_SETUP, dispo)

/-- `signal_manager_init` from `signals.c`.  `manager_given` is false when
the pointer is NULL.  Returns the C error code, the manager state written
so far (the config is stored before any handler is installed), and the
disposition table after the conditional `setup_signal_handler` calls, which
run in the fixed order SIGTERM, SIGINT, SIGHUP, SIGUSR1, SIGUSR2, SIGPIPE
and stop at the first failure. -/
def signal_manager_init (manager_given : Bool) (config : Option signal_config_t)
    (ok : Int → Bool) (dispo : Int → disposition_t) :
    signal_error_t × Option signal_manager_t × (Int → disposition_t) :=
  if !manager_given then (.SIGNAL_ERROR_INVALID_PARAM, none, dispo)
  else
    let m : signal_manager_t :=
      { zeroed_signal_manager with config := config.getD signal_manager_default_config }
    let step := fun (acc : signal_error_t × (Int → disposition_t)) (p : Bool × Int) =>
      match acc with
      | (.SIGNAL_OK, d) =>
        if p.1 then setup_signal_handler ok p.2 true d else (.SIGNAL_OK, d)
      | e => e
    let r := [(m.config.handle_sigterm, SIGTERM), (m.config.handle_sigint, SIGINT),
              (m.config.handle_sighup, SIGHUP), (m.config.handle_sigusr1, SIGUSR1),
              (m.config.handle_sigusr2, SIGUSR2),
              (m.config.handle_sigpipe, SIGPIPE)].foldl step (.SIGNAL_OK, dispo)
    (r.1, some m, r.2)

/-- `signal_manager_cleanup` from `signals.c`: restores `SIG_DFL` for every
signal kind the stored config enabled (return values of the individual
`sigaction` calls are ignored) and zeroes the manager. -/
def signal_manager_cleanup (mgr : Option signal_manager_t) (ok : Int → Bool)
    (dispo : Int → disposition_t) :
    Option signal_manager_t × (Int → disposition_t) :=
  match mgr with
  | none => (none, dispo)
  | some m =>
    let d1 := if m.config.handle_sigterm then (setup_signal_handler ok SIGTERM false dispo).2 else dispo
    let d2 := if m.config.handle_sigint then (setup_signal_handler ok SIGINT false d1).2 else d1
    let d3 := if m.config.handle_sighup then (setup_signal_handler ok SIGHUP false d2).2 else d2
    let d4 := if m.config.handle_sigusr1 then (setup_signal_handler ok SIGUSR1 false d3).2 else d3
    let d5 := if m.config.handle_sigusr2 then (setup_signal_handler ok SIGUSR2 false d4).2 else d4
    let d6 := if m.config.handle_sigpipe then (setup_signal_handler ok SIGPIPE false d5).2 else d5
    (some zeroed_signal_manager, d6)

/-- The slot record with its channel descriptor marked consumed (`-1`), as
written back by a successful `worker_manager_signal_ready`. -/
def consumed_slot (m : worker_manager_t) : worker_context_t :=
  { m.workers.getD m.current_worker_id.toNat zeroed_worker_context with eventfd := -1 }

/-! ## Demonstration states -/

/-- A freshly initialized parent manager with one worker slot. -/
def parent_demo : worker_manager_t :=
  { config := { worker_count := 1, cpu_ids := [0], enable_affinity := false },
    workers := [zeroed_worker_context],
    type := .PROCESS_TYPE_PARENT,
    current_worker_id := -1 }

/-- A freshly initialized parent manager with two worker slots, CPU ids 4
and 9, and affinity enabled. -/
def two_worker_demo : worker_manager_t :=
  { config := { worker_count := 2, cpu_ids := [4, 9], enable_affinity := true },
    workers := List.replicate 2 zeroed_worker_context,
    type := .PROCESS_TYPE_PARENT,
    current_worker_id := -1 }

/-- A worker-role manager whose stored worker index (5) is out of the valid
range `0 ≤ id < worker_count = 1`. -/
def out_of_range_demo : worker_manager_t :=
  { config := { worker_count := 1, cpu_ids := [0], enable_affinity := false },
    workers := [zeroed_worker_context],
    type := .PROCESS_TYPE_WORKER,
    current_worker_id := 5 }

/-! ## Claims -/

/-- C5: `worker_manager_init` validates `worker_count > 0` and a non-NULL
CPU-id list; with `worker_count = 0` it fails with the invalid-config error
code before touching any OS resource and creates no processes; on success
it copies the config (with a private copy of the CPU-id array), allocates
the zeroed worker-slot array, and marks the manager as the parent. -/
theorem C5_init_validation :
    (∀ (cfg : worker_config_t) (alloc : alloc_oracle_t), cfg.worker_count = 0 →
      worker_manager_init true (some cfg) alloc =
        (.error .PROCESS_ERROR_INVALID_PARAM, []) ∧
      os_resource_t.spawn_process ∉ (worker_manager_init true (some cfg) alloc).2) ∧
    (∀ (cfg : worker_config_t) (alloc : alloc_oracle_t), cfg.cpu_ids = none →
      (worker_manager_init true (some cfg) alloc).1 =
        .error .PROCESS_ERROR_INVALID_PARAM) ∧
    (∀ (cfg : worker_config_t) (l : List Int) (alloc : alloc_oracle_t),
      0 < cfg.worker_count → cfg.cpu_ids = some l →
      alloc.malloc_cpu_ids = true → alloc.malloc_workers = true →
      ∃ m : worker_manager_t,
        (worker_manager_init true (some cfg) alloc).1 = .ok m ∧
        m.config.worker_count = cfg.worker_count ∧
        m.config.cpu_ids = l.take cfg.worker_count.toNat ∧
        m.config.enable_affinity = cfg.enable_affinity ∧
        m.workers = List.replicate cfg.worker_count.toNat zeroed_worker_context ∧
        m.type = .PROCESS_TYPE_PARENT ∧
        m.current_worker_id = -1) := by
  refine ⟨?_, ?_, ?_⟩
  · intro cfg alloc h
    have hle : cfg.worker_count ≤ 0 := by omega
    constructor
    · simp [worker_manager_init, if_pos hle]
    · simp [worker_manager_init, if_pos hle]
  · intro cfg alloc h
    by_cases hle : cfg.worker_count ≤ 0 <;>
      simp [worker_manager_init, h, hle]
  · intro cfg l alloc hpos hl hc hw
    have hle : ¬ cfg.worker_count ≤ 0 := by omega
    refine ⟨{ config := { worker_count := cfg.worker_count,
                          cpu_ids := l.take cfg.worker_count.toNat,
                          enable_affinity := cfg.enable_affinity },
              workers := List.replicate cfg.worker_count.toNat zeroed_worker_context,
              type := .PROCESS_TYPE_PARENT,
              current_worker_id := -1 }, ?_, rfl, rfl, rfl, rfl, rfl, rfl⟩
    simp [worker_manager_init, hle, hl, hc, hw]

/-- Witness for C5 at a concrete zero-count config, a NULL-list config, and
a valid two-worker config. -/
theorem C5_init_validation_witness :
    worker_manager_init true
        (some { worker_count := 0, cpu_ids := some [1], enable_affinity := false })
        { malloc_cpu_ids := true, malloc_workers := true } =
      (.error .PROCESS_ERROR_INVALID_PARAM, []) ∧
    (worker_manager_init true
        (some { worker_count := 2, cpu_ids := none, enable_affinity := false })
        { malloc_cpu_ids := true, malloc_workers := true }).1 =
      .error .PROCESS_ERROR_INVALID_PARAM ∧
    ∃ m : worker_manager_t,
      (worker_manager_init true
          (some { worker_count := 2, cpu_ids := some [4, 9], enable_affinity := true })
          { malloc_cpu_ids := true, malloc_workers := true }).1 = .ok m ∧
      m.config.worker_count = 2 ∧
      m.config.cpu_ids = [4, 9].take (2 : Int).toNat ∧
      m.config.enable_affinity = true ∧
      m.workers = List.replicate (2 : Int).toNat zeroed_worker_context ∧
      m.type = .PROCESS_TYPE_PARENT ∧
      m.current_worker_id = -1 := by
  refine ⟨(C5_init_validation.1 _ _ rfl).1, C5_init_validation.2.1 _ _ rfl, ?_⟩
  exact C5_init_validation.2.2 _ [4, 9] _ (by decide) rfl rfl rfl

/-- C9 counterexample: with role `Worker` and stored index 5 out of range
(worker_count 1), `worker_manager_get_worker_id` returns the stored index 5
rather than -1 — the claim says both accessors return -1 whenever the
stored worker index is out of range, but `worker_manager_get_worker_id`
performs no range check. -/
theorem C9_accessors_counterexample :
    out_of_range_demo.type = .PROCESS_TYPE_WORKER ∧
    out_of_range_demo.current_worker_id ≥ out_of_range_demo.config.worker_count ∧
    worker_manager_get_worker_id (some out_of_range_demo) = 5 ∧
    worker_manager_get_worker_id (some out_of_range_demo) ≠ -1 := by
  decide

/-- C9 (amended): `worker_manager_get_type` of NULL reports the parent
role; `worker_manager_get_worker_id` and `worker_manager_get_cpu_id`
return -1 when the manager is NULL or the role is not `Worker`;
`worker_manager_get_cpu_id` additionally returns -1 when the stored index
is out of range, while `worker_manager_get_worker_id` returns the stored
index unchecked; for a worker with in-range index the CPU recorded for
that slot is returned.  None of the accessors can fail. -/
theorem C9_accessors (m : worker_manager_t) :
    worker_manager_get_type none = .PROCESS_TYPE_PARENT ∧
    worker_manager_get_worker_id none = -1 ∧
    worker_manager_get_cpu_id none = -1 ∧
    (m.type = .PROCESS_TYPE_PARENT →
      worker_manager_get_worker_id (some m) = -1 ∧
      worker_manager_get_cpu_id (some m) = -1) ∧
    (m.type = .PROCESS_TYPE_WORKER →
      worker_manager_get_worker_id (some m) = m.current_worker_id) ∧
    (m.type = .PROCESS_TYPE_WORKER →
      (m.current_worker_id < 0 ∨ m.current_worker_id ≥ m.config.worker_count) →
      worker_manager_get_cpu_id (some m) = -1) ∧
    (m.type = .PROCESS_TYPE_WORKER →
      0 ≤ m.current_worker_id → m.current_worker_id < m.config.worker_count →
      worker_manager_get_cpu_id (some m) =
        (m.workers.getD m.current_worker_id.toNat zeroed_worker_context).cpu_id) := by
  refine ⟨rfl, rfl, rfl, ?_, ?_, ?_, ?_⟩
  · intro h
    constructor <;> simp [worker_manager_get_worker_id, worker_manager_get_cpu_id, h]
  · intro h
    simp [worker_manager_get_worker_id, h]
  · intro h hrange
    show (if m.type ≠ process_type_t.PROCESS_TYPE_WORKER then -1
      else if m.current_worker_id < 0 ∨ m.current_worker_id ≥ m.config.worker_count then -1
      else (m.workers.getD m.current_worker_id.toNat zeroed_worker_context).cpu_id) = -1
    rw [if_neg (by simp [h]), if_pos hrange]
  · intro h h0 h1
    have hn : ¬ (m.current_worker_id < 0 ∨ m.current_worker_id ≥ m.config.worker_count) := by
      omega
    show (if m.type ≠ process_type_t.PROCESS_TYPE_WORKER then -1
      else if m.current_worker_id < 0 ∨ m.current_worker_id ≥ m.config.worker_count then -1
      else (m.workers.getD m.current_worker_id.toNat zeroed_worker_context).cpu_id) =
      (m.workers.getD m.current_worker_id.toNat zeroed_worker_context).cpu_id
    rw [if_neg (by simp [h]), if_neg hn]

/-- Witness for C9 (amended) at a concrete worker-role manager. -/
theorem C9_accessors_witness :
    worker_manager_get_worker_id (some out_of_range_demo) =
      out_of_range_demo.current_worker_id ∧
    worker_manager_get_cpu_id (some out_of_range_demo) = -1 :=
  ⟨(C9_accessors out_of_range_demo).2.2.2.2.1 rfl,
   (C9_accessors out_of_range_demo).2.2.2.2.2.1 rfl (by decide)⟩

/-- C6 counterexample: the caller-visible return value of
`worker_manager_wait_workers` is only the `process_error_t` code; on
success it is the constant `PROCESS_OK`, so no function of that return
value can recover which child terminated — the terminated worker's
identity is not returned to the caller (the pid is only written to the
log). -/
theorem C6_wait_counterexample :
    ¬ ∃ recover : process_error_t → Int,
        ∀ pid : Int,
          recover (worker_manager_wait_workers (some parent_demo) (some pid)).1 = pid := by
  rintro ⟨f, hf⟩
  have h5 := hf 5
  have h7 := hf 7
  rw [show (worker_manager_wait_workers (some parent_demo) (some 5)).1 =
        .PROCESS_OK from rfl] at h5
  rw [show (worker_manager_wait_workers (some parent_demo) (some 7)).1 =
        .PROCESS_OK from rfl] at h7
  rw [h5] at h7
  exact absurd h7 (by decide)

/-- C6 (amended): `worker_manager_wait_workers` is callable only by the
parent (a NULL manager or a worker-role caller gets the invalid-parameter
error); it consumes the result of the blocking OS `wait` call, failing
with the wait error code exactly when that call fails, and on success it
logs the terminated child's pid and returns `PROCESS_OK` — the identity is
conveyed in the log, not in the return value. -/
theorem C6_wait_workers (m : worker_manager_t) (wres : Option Int) (pid : Int) :
    (worker_manager_wait_workers none wres).1 = .PROCESS_ERROR_INVALID_PARAM ∧
    (m.type ≠ .PROCESS_TYPE_PARENT →
      (worker_manager_wait_workers (some m) wres).1 = .PROCESS_ERROR_INVALID_PARAM) ∧
    (m.type = .PROCESS_TYPE_PARENT →
      worker_manager_wait_workers (some m) none = (.PROCESS_ERROR_WAIT, []) ∧
      worker_manager_wait_workers (some m) (some pid) =
        (.PROCESS_OK, [.worker_exit_logged pid])) := by
  refine ⟨rfl, ?_, ?_⟩
  · intro h
    cases wres <;> simp [worker_manager_wait_workers, h]
  · intro h
    constructor <;> simp [worker_manager_wait_workers, h]

/-- Witness for C6 (amended) at a concrete parent manager. -/
theorem C6_wait_workers_witness :
    worker_manager_wait_workers (some parent_demo) none = (.PROCESS_ERROR_WAIT, []) ∧
    worker_manager_wait_workers (some parent_demo) (some 42) =
      (.PROCESS_OK, [.worker_exit_logged 42]) :=
  (C6_wait_workers parent_demo none 42).2.2 rfl

/-- C10: `signal_manager_set_handler` accepts exactly SIGTERM, SIGINT,
SIGHUP, SIGUSR1 and SIGUSR2 — storing or replacing the callback and
returning `SIGNAL_OK`, without touching the request flags or the config —
and rejects every other signal number (including SIGPIPE) with
`SIGNAL_ERROR_INVALID_PARAM`, leaving the manager unchanged. -/
theorem C10_set_handler_domain (m : signal_manager_t) (signum : Int) (cb : Option Nat) :
    ((signum = SIGTERM ∨ signum = SIGINT ∨ signum = SIGHUP ∨
        signum = SIGUSR1 ∨ signum = SIGUSR2) →
      ∃ m2, signal_manager_set_handler (some m) signum cb = (.SIGNAL_OK, some m2) ∧
        registered_callback m2 signum = cb ∧
        m2.shutdown_requested = m.shutdown_requested ∧
        m2.reload_requested = m.reload_requested ∧
        m2.config = m.config) ∧
    (signum ≠ SIGTERM → signum ≠ SIGINT → signum ≠ SIGHUP →
      signum ≠ SIGUSR1 → signum ≠ SIGUSR2 →
      signal_manager_set_handler (some m) signum cb =
        (.SIGNAL_ERROR_INVALID_PARAM, some m)) := by
  constructor
  · rintro (h | h | h | h | h) <;> subst h
    · exact ⟨{ m with sigterm_handler := cb }, by
        simp [signal_manager_set_handler, registered_callback,
          SIGTERM, SIGINT, SIGHUP, SIGUSR1, SIGUSR2]⟩
    · exact ⟨{ m with sigint_handler := cb }, by
        simp [signal_manager_set_handler, registered_callback,
          SIGTERM, SIGINT, SIGHUP, SIGUSR1, SIGUSR2]⟩
    · exact ⟨{ m with sighup_handler := cb }, by
        simp [signal_manager_set_handler, registered_callback,
          SIGTERM, SIGINT, SIGHUP, SIGUSR1, SIGUSR2]⟩
    · exact ⟨{ m with sigusr1_handler := cb }, by
        simp [signal_manager_set_handler, registered_callback,
          SIGTERM, SIGINT, SIGHUP, SIGUSR1, SIGUSR2]⟩
    · exact ⟨{ m with sigusr2_handler := cb }, by
        simp [signal_manager_set_handler, registered_callback,
          SIGTERM, SIGINT, SIGHUP, SIGUSR1, SIGUSR2]⟩
  · intro h1 h2 h3 h4 h5
    simp [signal_manager_set_handler, h1, h2, h3, h4, h5]

/-- Witness for C10: replacing the SIGTERM callback succeeds; SIGPIPE is
rejected and the manager is unchanged. -/
theorem C10_set_handler_domain_witness :
    (∃ m2, signal_manager_set_handler (some zeroed_signal_manager) SIGTERM (some 7) =
        (.SIGNAL_OK, some m2) ∧ registered_callback m2 SIGTERM = some 7 ∧
        m2.shutdown_requested = zeroed_signal_manager.shutdown_requested ∧
        m2.reload_requested = zeroed_signal_manager.reload_requested ∧
        m2.config = zeroed_signal_manager.config) ∧
    signal_manager_set_handler (some zeroed_signal_manager) SIGPIPE (some 7) =
      (.SIGNAL_ERROR_INVALID_PARAM, some zeroed_signal_manager) :=
  ⟨(C10_set_handler_domain zeroed_signal_manager SIGTERM (some 7)).1 (Or.inl rfl),
   (C10_set_handler_domain zeroed_signal_manager SIGPIPE (some 7)).2
     (by decide) (by decide) (by decide) (by decide) (by decide)⟩

/-- C4: `worker_manager_signal_ready` succeeds only for a caller whose role
is `Worker(i)` with a still-open channel handle for slot `i`; a parent
caller fails with the invalid-parameter code (the `InvalidState`-class
error of this module) and is left unchanged; one successful call closes
the handle (marking the slot's descriptor consumed with `-1`), after which
a second call from the same worker fails with the same code — each
readiness channel is signaled at most once. -/
theorem C4_signal_ready_once (m : worker_manager_t) (w1 w2 : Bool) :
    (m.type = .PROCESS_TYPE_PARENT →
      worker_manager_signal_ready (some m) w1 =
        (.PROCESS_ERROR_INVALID_PARAM, some m)) ∧
    ((worker_manager_signal_ready (some m) w1).1 = .PROCESS_OK →
      m.type = .PROCESS_TYPE_WORKER ∧
      0 ≤ m.current_worker_id ∧ m.current_worker_id < m.config.worker_count ∧
      (m.workers.getD m.current_worker_id.toNat zeroed_worker_context).eventfd > 0) ∧
    (∀ m2 : worker_manager_t,
      worker_manager_signal_ready (some m) w1 = (.PROCESS_OK, some m2) →
      (m2.workers.getD m2.current_worker_id.toNat zeroed_worker_context).eventfd = -1 ∧
      (worker_manager_signal_ready (some m2) w2).1 = .PROCESS_ERROR_INVALID_PARAM) := by
  have heq : worker_manager_signal_ready (some m) w1 =
      (if m.type ≠ process_type_t.PROCESS_TYPE_WORKER then
        (.PROCESS_ERROR_INVALID_PARAM, some m)
      else if m.current_worker_id < 0 ∨ m.current_worker_id ≥ m.config.worker_count then
        (.PROCESS_ERROR_INVALID_PARAM, some m)
      else if (m.workers.getD m.current_worker_id.toNat zeroed_worker_context).eventfd ≤ 0 then
        (.PROCESS_ERROR_INVALID_PARAM, some m)
      else if !w1 then (.PROCESS_ERROR_EVENTFD, some m)
      else (.PROCESS_OK,
        some { m with workers :=
          m.workers.set m.current_worker_id.toNat (consumed_slot m) })) := rfl
  refine ⟨?_, ?_, ?_⟩
  · intro h
    rw [heq, if_pos (by simp [h])]
  · intro h
    rw [heq] at h
    by_cases ht : m.type = process_type_t.PROCESS_TYPE_WORKER
    · rw [if_neg (by simp [ht])] at h
      by_cases hr : m.current_worker_id < 0 ∨ m.current_worker_id ≥ m.config.worker_count
      · rw [if_pos hr] at h; simp at h
      · rw [if_neg hr] at h
        by_cases he :
            (m.workers.getD m.current_worker_id.toNat zeroed_worker_context).eventfd ≤ 0
        · rw [if_pos he] at h; simp at h
        · exact ⟨ht, by omega, by omega, by omega⟩
    · rw [if_pos ht] at h; simp at h
  · intro m2 h
    rw [heq] at h
    by_cases ht : m.type = process_type_t.PROCESS_TYPE_WORKER
    · rw [if_neg (by simp [ht])] at h
      by_cases hr : m.current_worker_id < 0 ∨ m.current_worker_id ≥ m.config.worker_count
      · rw [if_pos hr] at h; simp at h
      · rw [if_neg hr] at h
        by_cases he :
            (m.workers.getD m.current_worker_id.toNat zeroed_worker_context).eventfd ≤ 0
        · rw [if_pos he] at h; simp at h
        · rw [if_neg he] at h
          cases w1 with
          | false => simp at h
          | true =>
            simp only [Bool.not_true, if_neg Bool.false_ne_true, Prod.mk.injEq,
              Option.some.injEq] at h
            obtain ⟨-, hm2⟩ := h
            have hlen : m.current_worker_id.toNat < m.workers.length := by
              by_contra hge
              push_neg at hge
              have hz : m.workers.getD m.current_worker_id.toNat zeroed_worker_context =
                  zeroed_worker_context := by
                rw [List.getD_eq_getElem?_getD, List.getElem?_eq_none_iff.mpr (by omega)]
                rfl
              rw [hz] at he
              simp [zeroed_worker_context] at he
            have hslot : (m2.workers.getD m2.current_worker_id.toNat
                zeroed_worker_context).eventfd = -1 := by
              rw [← hm2]
              show ((m.workers.set m.current_worker_id.toNat
                (consumed_slot m)).getD m.current_worker_id.toNat
                zeroed_worker_context).eventfd = -1
              rw [List.getD_eq_getElem?_getD, List.getElem?_set_self (by omega)]
              rfl
            refine ⟨hslot, ?_⟩
            have ht2 : m2.type = process_type_t.PROCESS_TYPE_WORKER := by
              rw [← hm2]; exact ht
            have hr2 : ¬ (m2.current_worker_id < 0 ∨
                m2.current_worker_id ≥ m2.config.worker_count) := by
              rw [← hm2]; exact hr
            have heq2 : worker_manager_signal_ready (some m2) w2 =
                (if m2.type ≠ process_type_t.PROCESS_TYPE_WORKER then
                  (.PROCESS_ERROR_INVALID_PARAM, some m2)
                else if m2.current_worker_id < 0 ∨
                    m2.current_worker_id ≥ m2.config.worker_count then
                  (.PROCESS_ERROR_INVALID_PARAM, some m2)
                else if (m2.workers.getD m2.current_worker_id.toNat
                    zeroed_worker_context).eventfd ≤ 0 then
                  (.PROCESS_ERROR_INVALID_PARAM, some m2)
                else if !w2 then (.PROCESS_ERROR_EVENTFD, some m2)
                else (.PROCESS_OK,
                  some { m2 with workers :=
                    m2.workers.set m2.current_worker_id.toNat (consumed_slot m2) })) := rfl
            rw [heq2, if_neg (by simp [ht2]), if_neg hr2, if_pos (by omega)]
    · rw [if_pos ht] at h; simp at h

/-- Witness for C4: a concrete worker manager with an open slot descriptor:
a parent call fails, the worker's first call succeeds and consumes the
descriptor, a second call fails. -/
theorem C4_signal_ready_once_witness :
    worker_manager_signal_ready (some parent_demo) true =
      (.PROCESS_ERROR_INVALID_PARAM, some parent_demo) ∧
    (worker_manager_signal_ready
        (some { config := { worker_count := 1, cpu_ids := [0], enable_affinity := false },
                workers := [{ worker_id := 0, cpu_id := 0, eventfd := 3, pid := 0 }],
                type := .PROCESS_TYPE_WORKER, current_worker_id := 0 }) true).1 =
      .PROCESS_OK := by
  constructor
  · exact (C4_signal_ready_once parent_demo true true).1 rfl
  · decide

/-- Helper: no coordinator operation other than `reset_shutdown` clears the
shutdown flag. -/
theorem sig_step_preserves_shutdown (m : signal_manager_t) (op : sig_op_t)
    (hop : op ≠ .reset_shutdown) (h : m.shutdown_requested = true) :
    (sig_step m op).shutdown_requested = true := by
  cases op with
  | handle s =>
    show (signal_handler s m).shutdown_requested = true
    unfold signal_handler
    split_ifs <;> simp [h]
  | set_handler s cb =>
    show (match (signal_manager_set_handler (some m) s cb).2 with
      | some m2 => m2 | none => m).shutdown_requested = true
    unfold signal_manager_set_handler
    split_ifs <;> simp [h]
  | read_shutdown => exact h
  | read_reload => exact h
  | reset_reload => exact h
  | reset_shutdown => exact absurd rfl hop

/-- Helper: a run of coordinator operations containing no `reset_shutdown`
preserves a set shutdown flag. -/
theorem sig_run_preserves_shutdown (m : signal_manager_t) (ops : List sig_op_t)
    (h : m.shutdown_requested = true) (hops : sig_op_t.reset_shutdown ∉ ops) :
    (sig_run m ops).shutdown_requested = true := by
  induction ops generalizing m with
  | nil => exact h
  | cons op rest ih =>
    show (sig_run (sig_step m op) rest).shutdown_requested = true
    have hop : op ≠ sig_op_t.reset_shutdown := by
      intro hc
      exact hops (hc ▸ List.mem_cons_self op rest)
    exact ih (sig_step m op) (sig_step_preserves_shutdown m op hop h)
      (fun hr => hops (List.mem_cons_of_mem _ hr))

/-- C7: the handler invocation for SIGTERM or SIGINT sets
`shutdown_requested`; once set, the flag stays set across every coordinator
operation (handler invocations for any signal, reads, `set_handler`,
`reset_reload`) as long as `reset_shutdown` is not among them;
`reset_shutdown` clears it; and the SIGHUP (reload) handler sets only
`reload_requested`, leaving every other field — `shutdown_requested`
included — unchanged. -/
theorem C7_shutdown_latched :
    (∀ m : signal_manager_t,
      signal_manager_shutdown_requested (some (signal_handler SIGTERM m)) = true) ∧
    (∀ m : signal_manager_t,
      signal_manager_shutdown_requested (some (signal_handler SIGINT m)) = true) ∧
    (∀ (m : signal_manager_t) (ops : List sig_op_t),
      signal_manager_shutdown_requested (some m) = true →
      sig_op_t.reset_shutdown ∉ ops →
      signal_manager_shutdown_requested (some (sig_run m ops)) = true) ∧
    (∀ m : signal_manager_t,
      signal_manager_shutdown_requested (some (signal_manager_reset_shutdown m)) =
        false) ∧
    (∀ m : signal_manager_t,
      signal_handler SIGHUP m = { m with reload_requested := true }) := by
  refine ⟨?_, ?_, sig_run_preserves_shutdown, fun m => rfl, ?_⟩
  · intro m
    simp [signal_handler, signal_manager_shutdown_requested, SIGTERM, SIGINT, SIGHUP]
  · intro m
    simp [signal_handler, signal_manager_shutdown_requested, SIGTERM, SIGINT, SIGHUP]
  · intro m
    simp [signal_handler, SIGTERM, SIGINT, SIGHUP]

/-- Witness for C7: a SIGTERM handler invocation latches the flag through a
subsequent SIGHUP delivery, a callback registration, a read, and a reload
reset; `reset_shutdown` then clears it. -/
theorem C7_shutdown_latched_witness :
    signal_manager_shutdown_requested (some (sig_run
      (signal_handler SIGTERM zeroed_signal_manager)
      [.handle SIGHUP, .set_handler SIGUSR1 (some 3), .read_shutdown,
       .reset_reload])) = true ∧
    signal_manager_shutdown_requested (some (signal_manager_reset_shutdown
      (signal_handler SIGTERM zeroed_signal_manager))) = false :=
  ⟨C7_shutdown_latched.2.2.1 _ _ (C7_shutdown_latched.1 zeroed_signal_manager)
      (by decide),
   C7_shutdown_latched.2.2.2.1 _⟩

/-- C8: `signal_manager_default_config` enables exactly SIGTERM, SIGINT and
SIGPIPE handling and disables SIGHUP and both user signals; initializing
with that config and then cleaning up leaves the OS disposition of every
signal kind the config enabled at the default (`SIG_DFL`), provided the
restoring `sigaction` calls succeed. -/
theorem C8_default_config_roundtrip (dispo : Int → disposition_t)
    (ok_i ok_c : Int → Bool) (hterm : ok_c SIGTERM = true)
    (hint2 : ok_c SIGINT = true) (hpipe : ok_c SIGPIPE = true) :
    signal_manager_default_config =
      { handle_sigterm := true, handle_sigint := true, handle_sighup := false,
        handle_sigusr1 := false, handle_sigusr2 := false, handle_sigpipe := true } ∧
    ((signal_manager_cleanup
        (signal_manager_init true (some signal_manager_default_config) ok_i dispo).2.1
        ok_c
        (signal_manager_init true (some signal_manager_default_config) ok_i dispo).2.2).2
          SIGTERM = .dfl ∧
     (signal_manager_cleanup
        (signal_manager_init true (some signal_manager_default_config) ok_i dispo).2.1
        ok_c
        (signal_manager_init true (some signal_manager_default_config) ok_i dispo).2.2).2
          SIGINT = .dfl ∧
     (signal_manager_cleanup
        (signal_manager_init true (some signal_manager_default_config) ok_i dispo).2.1
        ok_c
        (signal_manager_init true (some signal_manager_default_config) ok_i dispo).2.2).2
          SIGPIPE = .dfl) := by
  have ht : ok_c 15 = true := hterm
  have hi : ok_c 2 = true := hint2
  have hp : ok_c 13 = true := hpipe
  refine ⟨rfl, ?_, ?_, ?_⟩ <;>
    simp [signal_manager_cleanup, signal_manager_init, setup_signal_handler,
      signal_manager_default_config, zeroed_signal_manager,
      SIGTERM, SIGINT, SIGHUP, SIGUSR1, SIGUSR2, SIGPIPE, ht, hi, hp]

/-- Witness for C8 with every `sigaction` call succeeding and an arbitrary
initial disposition table. -/
theorem C8_default_config_roundtrip_witness :
    (signal_manager_cleanup
        (signal_manager_init true (some signal_manager_default_config)
          (fun _ => true) (fun _ => disposition_t.installed)).2.1
        (fun _ => true)
        (signal_manager_init true (some signal_manager_default_config)
          (fun _ => true) (fun _ => disposition_t.installed)).2.2).2 SIGTERM = .dfl :=
  (C8_default_config_roundtrip (fun _ => disposition_t.installed)
    (fun _ => true) (fun _ => true) rfl rfl rfl).2.1

/-- Helper: one fork-loop iteration taken by the parent with a successful
handshake advances to the next index with the slot recorded and its channel
descriptor closed again. -/
theorem fork_loop_parent_step (oracle : Nat → fork_step_t) (fuel i : Nat)
    (st : proc_state_t) (pid : Int) (hor : oracle i = .parent pid true)
    (hfds : st.open_fds = []) :
    fork_loop oracle (fuel + 1) i st =
      fork_loop oracle fuel (i + 1) (parent_step_state st i pid) := by
  simp only [fork_loop, hor, hfds, parent_step_state]
  simp [handshaked_slot, List.set_set, List.erase_cons_head, List.append_assoc]

/-- Helper: `k` consecutive parent iterations with successful handshakes
advance the loop by `k` slots, recording them and emitting the
per-iteration trace. -/
theorem fork_loop_parent_advance (oracle : Nat → fork_step_t) (p cpu : Nat → Int)
    (k : Nat) :
    ∀ (fuel i : Nat) (st : proc_state_t),
      (∀ j, j < k → oracle (i + j) = .parent (p (i + j)) true) →
      st.open_fds = [] →
      (∀ j, st.mgr.config.cpu_ids.getD j 0 = cpu j) →
      fork_loop oracle (fuel + k) i st =
        fork_loop oracle fuel (i + k) (parent_advanced_state p cpu st i k) := by
  induction k with
  | zero =>
    intro fuel i st hor hfds hcpu
    simp only [Nat.add_zero, parent_advanced_state, parent_slots, parent_trace,
      List.append_nil]
    rw [← hfds]
  | succ k ih =>
    intro fuel i st hor hfds hcpu
    have h0 : oracle i = .parent (p i) true := by
      have := hor 0 (by omega)
      simpa using this
    have hstep := fork_loop_parent_step oracle (fuel + k) i st (p i) h0 hfds
    rw [show fuel + (k + 1) = (fuel + k) + 1 from rfl, hstep]
    have hnext := ih fuel (i + 1) (parent_step_state st i (p i))
      (fun j hj => by
        have := hor (j + 1) (by omega)
        rw [show i + 1 + j = i + (j + 1) from by omega]
        exact this)
      rfl
      (fun j => hcpu j)
    rw [hnext]
    rw [show i + 1 + k = i + (k + 1) from by omega]
    have hstate : parent_advanced_state p cpu (parent_step_state st i (p i)) (i + 1) k =
        parent_advanced_state p cpu st i (k + 1) := by
      simp only [parent_advanced_state, parent_step_state, parent_slots]
      rw [hcpu i]
      simp [parent_trace, List.append_assoc]
    rw [hstate]

/-- Helper: `parent_slots` preserves the slot-array length. -/
theorem parent_slots_length (p cpu : Nat → Int) :
    ∀ (k i : Nat) (ws : List worker_context_t),
      (parent_slots p cpu ws i k).length = ws.length := by
  intro k
  induction k with
  | zero => intro i ws; rfl
  | succ k ih =>
    intro i ws
    show (parent_slots p cpu (ws.set i (handshaked_slot i (cpu i) (p i))) (i + 1) k).length =
      ws.length
    rw [ih (i + 1) (ws.set i (handshaked_slot i (cpu i) (p i))), List.length_set]

/-- Helper: `parent_slots` leaves slots at or beyond `i + k` unchanged. -/
theorem parent_slots_getD_ge (p cpu : Nat → Int) :
    ∀ (k i j : Nat) (ws : List worker_context_t), i + k ≤ j →
      (parent_slots p cpu ws i k).getD j zeroed_worker_context =
        ws.getD j zeroed_worker_context := by
  intro k
  induction k with
  | zero => intro i j ws h; rfl
  | succ k ih =>
    intro i j ws h
    show (parent_slots p cpu (ws.set i (handshaked_slot i (cpu i) (p i))) (i + 1) k).getD j
        zeroed_worker_context = ws.getD j zeroed_worker_context
    rw [ih (i + 1) j _ (by omega)]
    rw [List.getD_eq_getElem?_getD, List.getD_eq_getElem?_getD,
      List.getElem?_set_ne (by omega)]

/-- Helper: `parent_slots` leaves slots below `i` unchanged. -/
theorem parent_slots_getD_below (p cpu : Nat → Int) :
    ∀ (k i j : Nat) (ws : List worker_context_t), j < i →
      (parent_slots p cpu ws i k).getD j zeroed_worker_context =
        ws.getD j zeroed_worker_context := by
  intro k
  induction k with
  | zero => intro i j ws h; rfl
  | succ k ih =>
    intro i j ws h
    show (parent_slots p cpu (ws.set i (handshaked_slot i (cpu i) (p i))) (i + 1) k).getD j
        zeroed_worker_context = ws.getD j zeroed_worker_context
    rw [ih (i + 1) j _ (by omega)]
    rw [List.getD_eq_getElem?_getD, List.getD_eq_getElem?_getD,
      List.getElem?_set_ne (by omega)]

/-- Helper: `parent_slots` records the handshaked slot at every index it
writes (indices `i ≤ j < i + k` within the array). -/
theorem parent_slots_getD_lt (p cpu : Nat → Int) :
    ∀ (k i j : Nat) (ws : List worker_context_t), i ≤ j → j < i + k →
      j < ws.length →
      (parent_slots p cpu ws i k).getD j zeroed_worker_context =
        handshaked_slot j (cpu j) (p j) := by
  intro k
  induction k with
  | zero => intro i j ws h1 h2 _; omega
  | succ k ih =>
    intro i j ws h1 h2 hlen
    show (parent_slots p cpu (ws.set i (handshaked_slot i (cpu i) (p i))) (i + 1) k).getD j
        zeroed_worker_context = handshaked_slot j (cpu j) (p j)
    by_cases hj : j = i
    · subst hj
      rw [parent_slots_getD_below p cpu k (j + 1) j _ (by omega)]
      rw [List.getD_eq_getElem?_getD,
        List.getElem?_set_self (by simpa using hlen)]
      rfl
    · exact ih (i + 1) j _ (by omega) (by omega) (by simpa using hlen)

/-- Helper: the child's close loop is the identity when every slot below
`i` already has a non-positive channel descriptor. -/
theorem close_inherited_id (ws : List worker_context_t) (fds : List Int) :
    ∀ i, (∀ j, j < i → (ws.getD j zeroed_worker_context).eventfd ≤ 0) →
      close_inherited ws fds i = (ws, fds) := by
  intro i
  induction i with
  | zero => intro h; rfl
  | succ i ih =>
    intro h
    show (let r := close_inherited ws fds i
      let w := r.1.getD i zeroed_worker_context
      if w.eventfd > 0 then
        (r.1.set i { w with eventfd := -1 }, r.2.erase w.eventfd)
      else r) = (ws, fds)
    rw [ih (fun j hj => h j (by omega))]
    have hle := h i (by omega)
    simp only []
    rw [if_neg (by omega)]

/-- Helper: the spawn events of the parent trace are exactly the slot
indices, in ascending order. -/
theorem parent_trace_spawns (p : Nat → Int) :
    ∀ (k i : Nat), (parent_trace p i k).filterMap spawn_index = List.range' i k := by
  intro k
  induction k with
  | zero => intro i; rfl
  | succ k ih =>
    intro i
    show ((pevent_t.created_channel i :: pevent_t.spawned i (p i) ::
        pevent_t.awaited i :: parent_trace p (i + 1) k).filterMap spawn_index) =
      List.range' i (k + 1)
    simp only [List.filterMap_cons, spawn_index]
    rw [ih (i + 1)]
    rfl

/-- Helper: inside the parent trace, the handshake-complete event of slot
`i0` occurs strictly before the spawn event of slot `i0 + 1`. -/
theorem parent_trace_decomp (p : Nat → Int) :
    ∀ (k i i0 : Nat), i ≤ i0 → i0 + 1 < i + k →
      ∃ l1 l2 l3, parent_trace p i k =
        l1 ++ pevent_t.awaited i0 ::
          (l2 ++ pevent_t.spawned (i0 + 1) (p (i0 + 1)) :: l3) := by
  intro k
  induction k with
  | zero => intro i i0 h1 h2; omega
  | succ k ih =>
    intro i i0 h1 h2
    by_cases hi : i0 = i
    · subst hi
      cases k with
      | zero => omega
      | succ k =>
        refine ⟨[.created_channel i0, .spawned i0 (p i0)], [.created_channel (i0 + 1)],
          pevent_t.awaited (i0 + 1) :: parent_trace p (i0 + 2) k, ?_⟩
        show pevent_t.created_channel i0 :: pevent_t.spawned i0 (p i0) ::
            pevent_t.awaited i0 :: parent_trace p (i0 + 1) (k + 1) = _
        simp [parent_trace]
    · obtain ⟨l1, l2, l3, hl⟩ := ih (i + 1) i0 (by omega) (by omega)
      refine ⟨pevent_t.created_channel i :: pevent_t.spawned i (p i) ::
        pevent_t.awaited i :: l1, l2, l3, ?_⟩
      show pevent_t.created_channel i :: pevent_t.spawned i (p i) ::
          pevent_t.awaited i :: parent_trace p (i + 1) k = _
      simp [hl]

/-- Helper: two oracles that agree up to an index at which the first one
takes the child continuation produce identical fork-loop executions — the
child continuation consults nothing past its own index. -/
theorem fork_loop_agree (oracle1 oracle2 : Nat → fork_step_t) :
    ∀ (fuel i ic : Nat) (st : proc_state_t) (pin : Bool), i ≤ ic →
      (∀ j, j ≤ ic → oracle2 j = oracle1 j) →
      oracle1 ic = .child pin →
      fork_loop oracle1 fuel i st = fork_loop oracle2 fuel i st := by
  intro fuel
  induction fuel with
  | zero => intro i ic st pin h1 h2 hc; rfl
  | succ fuel ih =>
    intro i ic st pin h1 h2 hc
    have hagree : oracle2 i = oracle1 i := h2 i h1
    cases horacle : oracle1 i with
    | efd_fail =>
      simp only [fork_loop, horacle, hagree]
    | fork_fail =>
      simp only [fork_loop, horacle, hagree]
    | parent pid read_ok =>
      have hne : i ≠ ic := by
        intro he
        rw [he, hc] at horacle
        exact absurd horacle (by simp)
      cases read_ok with
      | false => simp [fork_loop, horacle, hagree]
      | true =>
        simp only [fork_loop, horacle, hagree]
        exact ih (i + 1) ic _ pin (by omega) h2 hc
    | child pin2 =>
      simp only [fork_loop, horacle, hagree]

/-- C3: when every iteration succeeds, the parent of `fork_workers` spawns
the workers in ascending index order (the spawn events, filtered from the
trace, are exactly `0, 1, ..., N-1` in order) and completes the readiness
handshake of worker `i` (blocking await plus closing its handle) strictly
before attempting the spawn of worker `i + 1`. -/
theorem C3_handshake_order (m : worker_manager_t) (oracle : Nat → fork_step_t)
    (p : Nat → Int)
    (hall : ∀ j, j < m.config.worker_count.toNat → oracle j = .parent (p j) true) :
    (worker_manager_fork_workers (some m) oracle).1 = .PROCESS_OK ∧
    ∃ st, (worker_manager_fork_workers (some m) oracle).2 = some st ∧
      st.events.filterMap spawn_index = List.range m.config.worker_count.toNat ∧
      (∀ i, i + 1 < m.config.worker_count.toNat →
        ∃ l1 l2 l3, st.events =
          l1 ++ pevent_t.awaited i ::
            (l2 ++ pevent_t.spawned (i + 1) (p (i + 1)) :: l3)) := by
  set n := m.config.worker_count.toNat with hn
  have hloop : fork_loop oracle n 0 { mgr := m, open_fds := [], events := [] } =
      (.PROCESS_OK, parent_advanced_state p (fun j => m.config.cpu_ids.getD j 0)
        { mgr := m, open_fds := [], events := [] } 0 n) := by
    have hadv := fork_loop_parent_advance oracle p (fun j => m.config.cpu_ids.getD j 0)
      n 0 0 { mgr := m, open_fds := [], events := [] }
      (fun j hj => by simpa using hall j hj) rfl (fun j => rfl)
    rw [Nat.zero_add] at hadv
    exact hadv
  have hres1 : (worker_manager_fork_workers (some m) oracle).1 = .PROCESS_OK := by
    show (fork_loop oracle n 0 { mgr := m, open_fds := [], events := [] }).1 = _
    rw [hloop]
  have hres2 : (worker_manager_fork_workers (some m) oracle).2 =
      some (parent_advanced_state p (fun j => m.config.cpu_ids.getD j 0)
        { mgr := m, open_fds := [], events := [] } 0 n) := by
    show some (fork_loop oracle n 0 { mgr := m, open_fds := [], events := [] }).2 = _
    rw [hloop]
  refine ⟨hres1, _, hres2, ?_, ?_⟩
  · show (([] : List pevent_t) ++ parent_trace p 0 n).filterMap spawn_index = List.range n
    rw [List.nil_append, parent_trace_spawns p n 0, List.range_eq_range']
  · intro i hi
    obtain ⟨l1, l2, l3, hl⟩ := parent_trace_decomp p n 0 i (by omega) (by omega)
    refine ⟨l1, l2, l3, ?_⟩
    show ([] : List pevent_t) ++ parent_trace p 0 n = _
    rw [List.nil_append, hl]

/-- Witness for C3 on a two-worker manager with an all-successful oracle. -/
theorem C3_handshake_order_witness :
    (worker_manager_fork_workers (some two_worker_demo)
      (fun j => .parent ((100 : Int) + j) true)).1 = .PROCESS_OK :=
  (C3_handshake_order two_worker_demo (fun j => .parent ((100 : Int) + j) true)
    (fun j => (100 : Int) + j) (fun _ _ => rfl)).1

/-- C2: if `fork` fails at index `k` (after `k` successful spawn-handshake
iterations), `fork_workers` closes the readiness channel it had just
created for slot `k` and returns the fork error code (`SpawnError`), which
is not a partial-success value; the spawn events of the trace are exactly
`0..k-1`, so no worker with index `k` or greater was ever created. -/
theorem C2_spawn_failure_aborts (m : worker_manager_t) (oracle : Nat → fork_step_t)
    (p : Nat → Int) (k : Nat)
    (hk : k < m.config.worker_count.toNat)
    (hpar : ∀ j, j < k → oracle j = .parent (p j) true)
    (hfail : oracle k = .fork_fail) :
    (worker_manager_fork_workers (some m) oracle).1 = .PROCESS_ERROR_FORK ∧
    (worker_manager_fork_workers (some m) oracle).1 ≠ .PROCESS_OK ∧
    ∃ st, (worker_manager_fork_workers (some m) oracle).2 = some st ∧
      channel_fd k ∉ st.open_fds ∧
      pevent_t.created_channel k ∈ st.events ∧
      st.events.filterMap spawn_index = List.range k := by
  set n := m.config.worker_count.toNat with hn
  have hadv := fork_loop_parent_advance oracle p (cpu_of m)
    k (n - k) 0 { mgr := m, open_fds := [], events := [] }
    (fun j hj => by simpa using hpar j hj) rfl (fun j => rfl)
  rw [Nat.zero_add, Nat.sub_add_cancel (Nat.le_of_lt hk)] at hadv
  obtain ⟨fuel2, hfuel2⟩ : ∃ f2, n - k = f2 + 1 := ⟨n - k - 1, by omega⟩
  rw [hfuel2] at hadv
  have hstep : fork_loop oracle (fuel2 + 1) k
      (parent_advanced_state p (cpu_of m)
        { mgr := m, open_fds := [], events := [] } 0 k) =
      (.PROCESS_ERROR_FORK,
        { mgr := { m with workers := parent_slots p (cpu_of m) m.workers 0 k },
          open_fds := [],
          events := parent_trace p 0 k ++ [.created_channel k] }) := by
    simp only [fork_loop, hfail, parent_advanced_state]
    simp [List.erase_cons_head]
  rw [hstep] at hadv
  have hres1 : (worker_manager_fork_workers (some m) oracle).1 = .PROCESS_ERROR_FORK := by
    show (fork_loop oracle n 0 { mgr := m, open_fds := [], events := [] }).1 = _
    rw [hadv]
  refine ⟨hres1, by rw [hres1]; simp, ?_⟩
  refine ⟨{ mgr := { m with workers := parent_slots p (cpu_of m) m.workers 0 k },
            open_fds := [],
            events := parent_trace p 0 k ++ [.created_channel k] }, ?_, ?_, ?_, ?_⟩
  · show some (fork_loop oracle n 0 { mgr := m, open_fds := [], events := [] }).2 = _
    rw [hadv]
  · show channel_fd k ∉ ([] : List Int)
    simp
  · show pevent_t.created_channel k ∈ parent_trace p 0 k ++ [pevent_t.created_channel k]
    simp
  · show (parent_trace p 0 k ++ [pevent_t.created_channel k]).filterMap spawn_index =
      List.range k
    rw [List.filterMap_append, parent_trace_spawns p k 0, List.range_eq_range']
    simp [spawn_index]

/-- Witness for C2 on a two-worker manager whose oracle forks slot 0
successfully and fails the fork of slot 1. -/
theorem C2_spawn_failure_aborts_witness :
    (worker_manager_fork_workers (some two_worker_demo)
      (fun j => if j = 0 then .parent 100 true else .fork_fail)).1 =
      .PROCESS_ERROR_FORK :=
  (C2_spawn_failure_aborts two_worker_demo
    (fun j => if j = 0 then .parent 100 true else .fork_fail)
    (fun _ => 100) 1 (by decide) (by decide) (by decide)).1

/-- C1: the continuation taken by the child process at slot `i` sets the
process-wide role to worker `i`; with affinity enabled a pin failure makes
it return the invalid-config error code; on success it stores its own
channel handle in slot `i` (still open), closes every channel handle of
slots below `i` inherited from the parent, and returns without executing
the loop body for any later index — the result is the same under any
oracle that agrees up to index `i`. -/
theorem C1_worker_branch (m : worker_manager_t) (oracle : Nat → fork_step_t)
    (p : Nat → Int) (i : Nat) (pin : Bool)
    (hi : i < m.config.worker_count.toNat)
    (hlen : m.workers.length = m.config.worker_count.toNat)
    (hpar : ∀ j, j < i → oracle j = .parent (p j) true)
    (hchild : oracle i = .child pin) :
    (∃ st, (worker_manager_fork_workers (some m) oracle).2 = some st ∧
      st.mgr.type = .PROCESS_TYPE_WORKER ∧
      st.mgr.current_worker_id = (i : Int) ∧
      (m.config.enable_affinity = true → pin = false →
        (worker_manager_fork_workers (some m) oracle).1 =
          .PROCESS_ERROR_INVALID_PARAM) ∧
      ((m.config.enable_affinity = true → pin = true) →
        (worker_manager_fork_workers (some m) oracle).1 = .PROCESS_OK ∧
        (st.mgr.workers.getD i zeroed_worker_context).eventfd = channel_fd i ∧
        (st.mgr.workers.getD i zeroed_worker_context).cpu_id = cpu_of m i ∧
        st.open_fds = [channel_fd i] ∧
        (∀ j, j < i →
          (st.mgr.workers.getD j zeroed_worker_context).eventfd ≤ 0 ∧
          channel_fd j ∉ st.open_fds))) ∧
    (∀ oracle2 : Nat → fork_step_t, (∀ j, j ≤ i → oracle2 j = oracle j) →
      worker_manager_fork_workers (some m) oracle2 =
        worker_manager_fork_workers (some m) oracle) := by
  set n := m.config.worker_count.toNat with hn
  have hind : ∀ oracle2 : Nat → fork_step_t, (∀ j, j ≤ i → oracle2 j = oracle j) →
      worker_manager_fork_workers (some m) oracle2 =
        worker_manager_fork_workers (some m) oracle := by
    intro oracle2 hagree
    have hag := fork_loop_agree oracle oracle2 n 0 i
      { mgr := m, open_fds := [], events := [] } pin (by omega) hagree hchild
    show ((fork_loop oracle2 n 0 { mgr := m, open_fds := [], events := [] }).1,
        some (fork_loop oracle2 n 0 { mgr := m, open_fds := [], events := [] }).2) =
      ((fork_loop oracle n 0 { mgr := m, open_fds := [], events := [] }).1,
        some (fork_loop oracle n 0 { mgr := m, open_fds := [], events := [] }).2)
    rw [hag]
  have hadv := fork_loop_parent_advance oracle p (cpu_of m) i (n - i) 0
    { mgr := m, open_fds := [], events := [] }
    (fun j hj => by simpa using hpar j hj) rfl (fun j => rfl)
  rw [Nat.zero_add, Nat.sub_add_cancel (Nat.le_of_lt hi)] at hadv
  obtain ⟨fuel2, hfuel2⟩ : ∃ f2, n - i = f2 + 1 := ⟨n - i - 1, by omega⟩
  rw [hfuel2] at hadv
  by_cases haff : (m.config.enable_affinity && !pin) = true
  · -- pin-failure continuation
    have hstep : fork_loop oracle (fuel2 + 1) i
        (parent_advanced_state p (cpu_of m)
          { mgr := m, open_fds := [], events := [] } 0 i) =
        (.PROCESS_ERROR_INVALID_PARAM, child_pinfail_state m p i) := by
      simp only [fork_loop, hchild, parent_advanced_state, child_pinfail_state, cpu_of]
      simp [haff, List.erase_cons_head]
    rw [hstep] at hadv
    simp only [Bool.and_eq_true, Bool.not_eq_true] at haff
    obtain ⟨ha, hp⟩ := haff
    refine ⟨⟨child_pinfail_state m p i, ?_, rfl, rfl, ?_, ?_⟩, hind⟩
    · show some (fork_loop oracle n 0 { mgr := m, open_fds := [], events := [] }).2 = _
      rw [hadv]
    · intro _ _
      show (fork_loop oracle n 0 { mgr := m, open_fds := [], events := [] }).1 = _
      rw [hadv]
    · intro hgood
      have hpt := hgood ha
      rw [hpt] at hp
      exact absurd hp (by decide)
  · -- successful worker continuation
    rw [Bool.not_eq_true] at haff
    have hclosed : ∀ j, j < i →
        (((parent_slots p (cpu_of m) m.workers 0 i).set i
          { (parent_slots p (cpu_of m) m.workers 0 i).getD i zeroed_worker_context with
            eventfd := channel_fd i, cpu_id := cpu_of m i }).getD j
          zeroed_worker_context).eventfd ≤ 0 := by
      intro j hj
      rw [List.getD_eq_getElem?_getD, List.getElem?_set_ne (by omega),
        ← List.getD_eq_getElem?_getD,
        parent_slots_getD_lt p (cpu_of m) i 0 j m.workers (by omega) (by omega)
          (by omega)]
      simp [handshaked_slot]
    have hstep : fork_loop oracle (fuel2 + 1) i
        (parent_advanced_state p (cpu_of m)
          { mgr := m, open_fds := [], events := [] } 0 i) =
        (.PROCESS_OK, child_success_state m p i) := by
      simp only [fork_loop, hchild, parent_advanced_state, child_success_state, cpu_of]
      simp only [haff, Bool.false_eq_true, if_false, List.nil_append]
      rw [close_inherited_id _ _ i (by simpa [cpu_of] using hclosed)]
    rw [hstep] at hadv
    have hWlen : (parent_slots p (cpu_of m) m.workers 0 i).length = m.workers.length :=
      parent_slots_length p (cpu_of m) i 0 m.workers
    refine ⟨⟨child_success_state m p i, ?_, rfl, rfl, ?_, ?_⟩, hind⟩
    · show some (fork_loop oracle n 0 { mgr := m, open_fds := [], events := [] }).2 = _
      rw [hadv]
    · intro ha hp
      rw [ha, hp] at haff
      exact absurd haff (by decide)
    · intro _
      have hok : (fork_loop oracle n 0 { mgr := m, open_fds := [], events := [] }).1 =
          process_error_t.PROCESS_OK := by rw [hadv]
      refine ⟨hok, ?_, ?_, rfl, ?_⟩
      · show (((parent_slots p (cpu_of m) m.workers 0 i).set i _).getD i
          zeroed_worker_context).eventfd = channel_fd i
        rw [List.getD_eq_getElem?_getD, List.getElem?_set_self (by omega)]
        rfl
      · show (((parent_slots p (cpu_of m) m.workers 0 i).set i _).getD i
          zeroed_worker_context).cpu_id = cpu_of m i
        rw [List.getD_eq_getElem?_getD, List.getElem?_set_self (by omega)]
        rfl
      · intro j hj
        refine ⟨hclosed j hj, ?_⟩
        show channel_fd j ∉ [channel_fd i]
        simp only [List.mem_singleton, channel_fd]
        intro hc
        omega

/-- Witness for C1: with slot 0 forked successfully and the executing
process becoming the child at slot 1, the outcome is unchanged under an
oracle that differs only at indices beyond 1. -/
theorem C1_worker_branch_witness :
    worker_manager_fork_workers (some two_worker_demo)
        (fun j => if j = 0 then .parent 100 true
          else if j = 1 then .child true else .efd_fail) =
      worker_manager_fork_workers (some two_worker_demo)
        (fun j => if j = 0 then .parent 100 true else .child true) :=
  (C1_worker_branch two_worker_demo
    (fun j => if j = 0 then .parent 100 true else .child true)
    (fun _ => 100) 1 true (by decide) (by decide) (by decide) (by decide)).2
    (fun j => if j = 0 then .parent 100 true
      else if j = 1 then .child true else .efd_fail)
    (by decide)

end Libreactor
